import Mathlib

/-!
Shallow embedding of the bikecurious speed/distance pipeline.

Sources:
- `src/iconsole_reader.py`, class `iConsoleDataReader`
  (`_calculate_wheel_metrics`, `_decode_indoor_bike_data`);
- `src/helth_daemon.py`, class `FixedConsoleDataReader`
  (`__init__` and the overriding `_calculate_wheel_metrics`).

Python floats are modelled as rationals (all constants in the source are
exact decimals), Python unbounded integers as `Int`.  I/O (logging and the
distance-file save) is omitted; it does not affect the returned values or
the in-memory state modelled here.
-/

namespace Bike

/-- The mutable fields of `iConsoleDataReader` / `FixedConsoleDataReader`
that the wheel-metrics pipeline reads or writes, plus the configuration
constants set in `__init__` (`src/helth_daemon.py` lines 35-56). -/
structure ReaderState where
  wheel_circumference_m : ℚ
  last_wheel_revs : Option ℤ
  last_wheel_time : Option ℤ
  total_distance_m : ℚ
  total_km : ℚ
  speed_buffer : List ℚ
  buffer_size : ℕ
  last_smoothed_speed : ℚ
  last_update_time : ℚ
  update_interval : ℚ
  min_speed_threshold : ℚ
  max_acceleration : ℚ
  max_deceleration : ℚ
  smoothing_factor : ℚ
  speed_std_threshold : ℚ
  deriving DecidableEq, Repr

/-- `FixedConsoleDataReader.__init__` (`src/helth_daemon.py` lines 35-56):
`total_km` is the externally persisted baseline loaded at start,
`total_distance_m = total_km * 1000`, the filter starts cold
(`speed_buffer = []`, `last_smoothed_speed = 0`) and `last_update_time`
is the construction wall-clock time `t0`. -/
def mkFixedReader (saved_km circumference t0 : ℚ) : ReaderState :=
  { wheel_circumference_m := circumference
    last_wheel_revs := none
    last_wheel_time := none
    total_distance_m := saved_km * 1000
    total_km := saved_km
    speed_buffer := []
    buffer_size := 10
    last_smoothed_speed := 0
    last_update_time := t0
    update_interval := 1.0
    min_speed_threshold := 1.0
    max_acceleration := 2.0
    max_deceleration := 3.0
    smoothing_factor := 0.15
    speed_std_threshold := 3.0 }

/-- Distance update block shared verbatim by `iconsole_reader.py`
lines 356-361 and `helth_daemon.py` lines 60-65: the revolution delta is
plain integer subtraction, and distance grows only when it is positive. -/
def distanceUpdate (st : ReaderState) (wheel_revs : ℤ) : ℚ :=
  match st.last_wheel_revs with
  | none => st.total_distance_m
  | some prev =>
      let rev_diff : ℤ := wheel_revs - prev
      if 0 < rev_diff then
        st.total_distance_m + (rev_diff : ℚ) * st.wheel_circumference_m
      else
        st.total_distance_m

/-- Instantaneous-speed block shared by `iconsole_reader.py` lines 363-378
and `helth_daemon.py` lines 74-89: raw deltas of both counters, a 16-bit
rollover correction applied to the time delta only, and a speed (km/h)
produced only when both deltas are positive. -/
def instSpeed (st : ReaderState) (wheel_revs wheel_time : ℤ) : Option ℚ :=
  match st.last_wheel_revs, st.last_wheel_time with
  | some prev_revs, some prev_time =>
      let rev_diff : ℤ := wheel_revs - prev_revs
      let raw_time_diff : ℤ := wheel_time - prev_time
      let time_diff : ℤ := if raw_time_diff < 0 then raw_time_diff + 65536 else raw_time_diff
      if 0 < time_diff ∧ 0 < rev_diff then
        let time_seconds : ℚ := (time_diff : ℚ) / 1024.0
        let distance_meters : ℚ := (rev_diff : ℚ) * st.wheel_circumference_m
        some (distance_meters / time_seconds * 3.6)
      else
        none
  | _, _ => none

/-- Base-class `_calculate_wheel_metrics` (`src/iconsole_reader.py`
lines 354-384): distance update, speed calculation, then the previous
counter values are overwritten; returns `(speed_kmh, total_km)`. -/
def baseCalculateWheelMetrics (st : ReaderState) (wheel_revs wheel_time : ℤ) :
    Option ℚ × ℚ × ReaderState :=
  let d := distanceUpdate st wheel_revs
  let speed := instSpeed st wheel_revs wheel_time
  let st1 : ReaderState :=
    { st with
      total_distance_m := d
      last_wheel_revs := some wheel_revs
      last_wheel_time := some wheel_time }
  (speed, d / 1000, st1)

/-- `statistics.mean`: arithmetic mean of a list (used on nonempty lists). -/
def mean (l : List ℚ) : ℚ := l.sum / l.length

/-- Sample variance, the square of `statistics.stdev`:
`sum((x - mean)^2) / (n - 1)` (used on lists of length at least 3). -/
def sampleVariance (l : List ℚ) : ℚ :=
  ((l.map fun x => (x - mean l) ^ 2).sum) / ((l.length : ℚ) - 1)

/-- Outlier rejection, `src/helth_daemon.py` lines 108-112: keep the
entries with `abs(speed - mean) <= speed_std_threshold * stdev`.  The
source compares against `threshold * sqrt(variance)`; since both sides
are nonnegative this is equivalent to the squared comparison
`(speed - mean)^2 <= threshold^2 * variance`, which keeps the definition
inside ℚ and decidable (the equivalence is `abs_le_mul_sqrt_iff` below). -/
def outlierFiltered (thr : ℚ) (l : List ℚ) : List ℚ :=
  l.filter fun x => decide ((x - mean l) ^ 2 ≤ thr ^ 2 * sampleVariance l)

/-- `statistics.median`: sort ascending; middle element for odd length,
average of the two middle elements for even length (used on nonempty
lists, where the `getD` default is never reached). -/
def median (l : List ℚ) : ℚ :=
  let s := l.insertionSort (· ≤ ·)
  if l.length % 2 = 1 then s.getD (l.length / 2) 0
  else (s.getD (l.length / 2 - 1) 0 + s.getD (l.length / 2) 0) / 2

/-- Stage 1 (`src/helth_daemon.py` lines 96-100): a usable sample is
appended to the buffer; if the buffer then exceeds `buffer_size`, the
oldest reading (index 0, `pop(0)`) is removed. -/
def ingest (st : ReaderState) (current_speed : Option ℚ) : List ℚ :=
  match current_speed with
  | some v =>
      let b := st.speed_buffer ++ [v]
      if st.buffer_size < b.length then b.drop 1 else b
  | none => st.speed_buffer

/-- Stages 2-3 (`src/helth_daemon.py` lines 102-120): with at least 3
buffered entries, reject outliers and take the median of the survivors
(falling back to the unfiltered mean when rejection empties the set);
with fewer than 3 entries use the current sample, or `0.0` when there is
none.  `median_speed` is therefore always a number; the guard
`if median_speed is not None` on line 123 of the source never fails and
its else-branch (lines 147-149) is unreachable, hence not modelled. -/
def medianSpeed (st : ReaderState) (buf : List ℚ) (current_speed : Option ℚ) : ℚ :=
  if 3 ≤ buf.length then
    let filtered := outlierFiltered st.speed_std_threshold buf
    if filtered = [] then mean buf else median filtered
  else
    current_speed.getD 0

/-- Stage 4, rate limiting (`src/helth_daemon.py` lines 122-137): when
the change from the last smoothed speed exceeds
`max_acceleration * time_diff` in absolute value, clamp an increase to
`last + max_acceleration * time_diff` and replace a decrease by
`last - max_deceleration * time_diff`. -/
def rateLimit (st : ReaderState) (median_speed time_diff : ℚ) : ℚ :=
  let max_change := st.max_acceleration * time_diff
  let speed_diff := median_speed - st.last_smoothed_speed
  if max_change < |speed_diff| then
    if 0 < speed_diff then st.last_smoothed_speed + max_change
    else st.last_smoothed_speed - st.max_deceleration * time_diff
  else median_speed

/-- Stage 5, exponential smoothing of the rate-limited estimate
(`src/helth_daemon.py` line 140), as a function of the filter state, the
current sample and the current wall-clock time. -/
def smoothedVal (st : ReaderState) (current_speed : Option ℚ) (current_time : ℚ) : ℚ :=
  let ms := medianSpeed st (ingest st current_speed) current_speed
  let limited := rateLimit st ms (current_time - st.last_update_time)
  st.smoothing_factor * limited + (1 - st.smoothing_factor) * st.last_smoothed_speed

/-- The filtering block of `FixedConsoleDataReader._calculate_wheel_metrics`
(`src/helth_daemon.py` lines 91-155): when at least `update_interval` has
elapsed since the last update, run stages 1-6 and commit the new buffer,
smoothed speed and update time; otherwise return the last smoothed speed
(snapped to 0 below the threshold) and leave the state unchanged.
Returns `(speed_kmh, new state)`. -/
def filterTick (st : ReaderState) (current_speed : Option ℚ) (current_time : ℚ) :
    ℚ × ReaderState :=
  if st.update_interval ≤ current_time - st.last_update_time then
    let smoothed := smoothedVal st current_speed current_time
    let speed_kmh := if st.min_speed_threshold ≤ smoothed then smoothed else 0
    (speed_kmh,
      { st with
        speed_buffer := ingest st current_speed
        last_smoothed_speed := smoothed
        last_update_time := current_time })
  else
    (if st.min_speed_threshold ≤ st.last_smoothed_speed then st.last_smoothed_speed else 0,
      st)

/-- `FixedConsoleDataReader._calculate_wheel_metrics`
(`src/helth_daemon.py` lines 58-161): distance update (including the
`total_km` bump of lines 67-71; the file save is I/O and omitted),
instantaneous speed, the filter tick, then the previous counter values
are overwritten; returns `(speed_kmh, total_km)`. -/
def fixedCalculateWheelMetrics (st : ReaderState) (wheel_revs wheel_time : ℤ)
    (current_time : ℚ) : ℚ × ℚ × ReaderState :=
  let d := distanceUpdate st wheel_revs
  let new_total_km := d / 1000
  let tk := if st.total_km < new_total_km then new_total_km else st.total_km
  let current_speed := instSpeed st wheel_revs wheel_time
  let st1 : ReaderState := { st with total_distance_m := d, total_km := tk }
  let r := filterTick st1 current_speed current_time
  let st2 : ReaderState :=
    { r.2 with last_wheel_revs := some wheel_revs, last_wheel_time := some wheel_time }
  (r.1, st2.total_distance_m / 1000, st2)

/-- Unsigned 16-bit little-endian read at offset `o`
(`struct.unpack` with format `<H`); only used where `o + 2 <= length`. -/
def le16 (data : List ℕ) (o : ℕ) : ℕ :=
  data.getD o 0 + 256 * data.getD (o + 1) 0

/-- Signed 16-bit little-endian read at offset `o`
(`struct.unpack` with format `<h`). -/
def sle16 (data : List ℕ) (o : ℕ) : ℤ :=
  let u := le16 data o
  if u < 32768 then (u : ℤ) else (u : ℤ) - 65536

/-- The dictionary returned by `_decode_indoor_bike_data`: every field is
optional; a missing field means the key is absent from the Python dict. -/
structure IndoorBikeMeasurement where
  flags : Option ℕ
  speed_kmh : Option ℚ
  cadence_rpm : Option ℚ
  distance_m : Option ℕ
  power_watts : Option ℤ
  deriving DecidableEq, Repr

/-- The empty dict `{}` returned for a buffer shorter than the 2-byte
flags field. -/
def IndoorBikeMeasurement.empty : IndoorBikeMeasurement :=
  ⟨none, none, none, none, none⟩

/-- `_decode_indoor_bike_data` (`src/iconsole_reader.py` lines 271-302):
fewer than 2 bytes yields `{}`; otherwise a 16-bit flags word is read
and each of speed, cadence, distance and power is decoded sequentially,
each only when its flag bit is set and 2 more bytes remain, advancing the
offset by 2 per decoded field.  The function is total: it never raises. -/
def decodeIndoorBikeData (data : List ℕ) : IndoorBikeMeasurement :=
  if data.length < 2 then IndoorBikeMeasurement.empty
  else
    let flags := le16 data 0
    let o1 := 2
    let speed : Option ℚ :=
      if flags &&& 0x01 ≠ 0 ∧ o1 + 2 ≤ data.length then some ((le16 data o1 : ℚ) / 100)
      else none
    let o2 := if flags &&& 0x01 ≠ 0 ∧ o1 + 2 ≤ data.length then o1 + 2 else o1
    let cadence : Option ℚ :=
      if flags &&& 0x02 ≠ 0 ∧ o2 + 2 ≤ data.length then some ((le16 data o2 : ℚ) / 2)
      else none
    let o3 := if flags &&& 0x02 ≠ 0 ∧ o2 + 2 ≤ data.length then o2 + 2 else o2
    let distance : Option ℕ :=
      if flags &&& 0x04 ≠ 0 ∧ o3 + 2 ≤ data.length then some (le16 data o3)
      else none
    let o4 := if flags &&& 0x04 ≠ 0 ∧ o3 + 2 ≤ data.length then o3 + 2 else o3
    let power : Option ℤ :=
      if flags &&& 0x08 ≠ 0 ∧ o4 + 2 ≤ data.length then some (sle16 data o4)
      else none
    ⟨some flags, speed, cadence, distance, power⟩

/-- A previous-sample state for the wraparound scenario of the spec:
the last wheel sample was `(4294967290, 0)`. -/
def wrapState : ReaderState :=
  { mkFixedReader 0 1.0525 0 with
    last_wheel_revs := some 4294967290
    last_wheel_time := some 0 }

/-- A previous-sample state `(100, 500)` for the zero-time-delta scenario. -/
def staleTimeState : ReaderState :=
  { mkFixedReader 0 1.0525 0 with
    last_wheel_revs := some 100
    last_wheel_time := some 500 }

/-- A filter state whose previously emitted smoothed speed is 10 km/h. -/
def decelState : ReaderState :=
  { mkFixedReader 0 1.0525 0 with last_smoothed_speed := 10 }

/-- Cold-start reader for the end-to-end scenario of the spec. -/
def coldStart : ReaderState := mkFixedReader 0 1.0525 0

/-- The end-to-end reader state after the seeding sample `(1000, 0)`
arrives at wall-clock time 0. -/
def seededStart : ReaderState := (fixedCalculateWheelMetrics coldStart 1000 0 0).2.2

/-- Result of processing the second sample `(1010, 1024)` of the
end-to-end scenario at wall-clock time 1. -/
def endToEndRun : ℚ × ℚ × ReaderState := fixedCalculateWheelMetrics seededStart 1010 1024 1

/-! ## Theorems -/

/-- Justification for the squared comparison in `outlierFiltered`: for a
nonnegative threshold and variance, `|d| <= t * sqrt v` is equivalent to
`d^2 <= t^2 * v`. -/
theorem abs_le_mul_sqrt_iff (d t v : ℝ) (ht : 0 ≤ t) (hv : 0 ≤ v) :
    |d| ≤ t * Real.sqrt v ↔ d ^ 2 ≤ t ^ 2 * v := by
  have hB : 0 ≤ t * Real.sqrt v := mul_nonneg ht (Real.sqrt_nonneg v)
  rw [show t ^ 2 * v = (t * Real.sqrt v) ^ 2 by rw [mul_pow, Real.sq_sqrt hv]]
  rw [← sq_abs d]
  exact (pow_le_pow_iff_left₀ (abs_nonneg d) hB (by norm_num)).symm

/-- The filter tick never touches the distance state. -/
theorem filterTick_total_distance (st : ReaderState) (cs : Option ℚ) (t : ℚ) :
    (filterTick st cs t).2.total_distance_m = st.total_distance_m := by
  unfold filterTick
  split <;> rfl

/-- `distanceUpdate` never decreases the distance state (for a
nonnegative circumference). -/
theorem le_distanceUpdate (st : ReaderState) (wheel_revs : ℤ)
    (hc : 0 ≤ st.wheel_circumference_m) :
    st.total_distance_m ≤ distanceUpdate st wheel_revs := by
  unfold distanceUpdate
  cases h : st.last_wheel_revs with
  | none => exact le_refl _
  | some prev =>
      dsimp only
      split
      · have hpos : (0 : ℚ) ≤ ((wheel_revs - prev : ℤ) : ℚ) := by
          exact_mod_cast Int.le_of_lt (by assumption)
        nlinarith [mul_nonneg hpos hc]
      · exact le_refl _

/-- The distance state after a full fixed-pipeline step is exactly the
result of the distance-update block. -/
theorem fixed_total_distance (st : ReaderState) (wheel_revs wheel_time : ℤ)
    (current_time : ℚ) :
    (fixedCalculateWheelMetrics st wheel_revs wheel_time current_time).2.2.total_distance_m
      = distanceUpdate st wheel_revs := by
  unfold fixedCalculateWheelMetrics
  dsimp only
  rw [filterTick_total_distance]

/-- C1 counterexample: with the previous wheel sample at `4294967290`, a
new sample of `5` with a positive time delta (`0 -> 1024`) produces NO
speed value and NO distance change — the code computes the revolution
delta by plain integer subtraction (`5 - 4294967290 = -4294967285`) with
no 32-bit reduction, so the claimed wraparound delta of `11` never
arises. -/
theorem wheel_wraparound_sample_dropped :
    (baseCalculateWheelMetrics wrapState 5 1024).1 = none ∧
    (baseCalculateWheelMetrics wrapState 5 1024).2.2.total_distance_m
      = wrapState.total_distance_m ∧
    (5 : ℤ) - 4294967290 = -4294967285 := by
  refine ⟨?_, ?_, by norm_num⟩ <;>
    norm_num [baseCalculateWheelMetrics, instSpeed, distanceUpdate, wrapState, mkFixedReader]

/-- C1 amended: the revolution delta is plain (unbounded) integer
subtraction, not arithmetic in the counter's 32-bit width; whenever the
new count is at most the previous one (as after a counter wraparound),
the sample yields no speed and leaves the distance unchanged. -/
theorem wheel_delta_plain_subtraction (st : ReaderState) (wheel_revs wheel_time prev : ℤ)
    (h : st.last_wheel_revs = some prev) (hle : wheel_revs ≤ prev) :
    (baseCalculateWheelMetrics st wheel_revs wheel_time).1 = none ∧
    (baseCalculateWheelMetrics st wheel_revs wheel_time).2.2.total_distance_m
      = st.total_distance_m := by
  have hnot : ¬ (0 : ℤ) < wheel_revs - prev := by omega
  constructor
  · unfold baseCalculateWheelMetrics instSpeed
    cases ht : st.last_wheel_time with
    | none => simp [h, ht]
    | some pt => simp [h, ht, hnot]
  · unfold baseCalculateWheelMetrics distanceUpdate
    simp [h, hnot]

/-- C1 witness: the amended theorem applied to the wraparound scenario
`4294967290 -> 5`. -/
theorem wheel_delta_plain_subtraction_witness :
    (baseCalculateWheelMetrics wrapState 5 1024).1 = none ∧
    (baseCalculateWheelMetrics wrapState 5 1024).2.2.total_distance_m
      = wrapState.total_distance_m :=
  wheel_delta_plain_subtraction wrapState 5 1024 4294967290 rfl (by norm_num)

/-- C2: a full step of the fixed pipeline never decreases the cumulative
distance state (for a nonnegative wheel circumference); the filter tick
never touches it, and the distance block only ever adds a nonnegative
increment. -/
theorem cumulative_distance_monotone (st : ReaderState) (wheel_revs wheel_time : ℤ)
    (current_time : ℚ) (hc : 0 ≤ st.wheel_circumference_m) :
    st.total_distance_m ≤
      (fixedCalculateWheelMetrics st wheel_revs wheel_time current_time).2.2.total_distance_m := by
  rw [fixed_total_distance]
  exact le_distanceUpdate st wheel_revs hc

/-- C2 witness: monotonicity at a concrete step (previous sample
`(100, 500)`, new sample `(105, 500)`). -/
theorem cumulative_distance_monotone_witness :
    0 ≤ staleTimeState.wheel_circumference_m ∧
    staleTimeState.total_distance_m ≤
      (fixedCalculateWheelMetrics staleTimeState 105 500 0).2.2.total_distance_m :=
  ⟨by norm_num [staleTimeState, mkFixedReader],
   cumulative_distance_monotone staleTimeState 105 500 0
     (by norm_num [staleTimeState, mkFixedReader])⟩

/-- C3 counterexample: for the history `[10,10,11,9,10,200]` the value
`200` is NOT rejected — its deviation from the mean (`475/3 ~ 158.3`) is
within 3 sample standard deviations (`3 * sqrt(270768/45) ~ 232.7`) — so
the surviving set is not `[9,10,10,10,11]`. -/
theorem outlier_200_not_rejected :
    (200 : ℚ) ∈ outlierFiltered 3 [10, 10, 11, 9, 10, 200] ∧
    (outlierFiltered 3 [10, 10, 11, 9, 10, 200]).length = 6 := by
  constructor <;> norm_num [outlierFiltered, mean, sampleVariance, List.filter]

/-- C3 amended: rejection drops an entry only when its squared deviation
from the history mean exceeds `(3 * sample std dev)^2`; for the history
`[10,10,11,9,10,200]` the extreme spread inflates the standard deviation
enough that nothing is dropped, and the median taken over the full
surviving set `[9,10,10,10,11,200]` is still 10. -/
theorem outlier_filter_on_spec_history :
    outlierFiltered 3 [10, 10, 11, 9, 10, 200] = [10, 10, 11, 9, 10, 200] ∧
    medianSpeed coldStart [10, 10, 11, 9, 10, 200] none = 10 := by
  constructor
  · norm_num [outlierFiltered, mean, sampleVariance, List.filter]
  · norm_num [outlierFiltered, medianSpeed, mean, sampleVariance, median, coldStart,
      mkFixedReader, List.filter, List.insertionSort, List.orderedInsert]
    simp

/-- C4 counterexample: with previous sample `(100, 500)`, the new sample
`(105, 500)` has a positive revolution delta but a zero time delta; the
code still adds `5 * 1.0525 = 5.2625` m of distance (while producing no
speed), contradicting the claim that such a sample adds no distance. -/
theorem distance_added_with_zero_time_delta :
    (baseCalculateWheelMetrics staleTimeState 105 500).2.2.total_distance_m
      = staleTimeState.total_distance_m + 5.2625 ∧
    (baseCalculateWheelMetrics staleTimeState 105 500).1 = none := by
  constructor <;>
    norm_num [baseCalculateWheelMetrics, distanceUpdate, instSpeed, staleTimeState,
      mkFixedReader]

/-- C4 amended: the distance accumulator adds the revolution-derived
increment whenever the revolution delta is positive, regardless of the
time delta (in both the base and the fixed pipeline); only the
instantaneous speed additionally requires a positive time delta. -/
theorem distance_increment_ignores_time_delta (st : ReaderState)
    (wheel_revs wheel_time prev : ℤ) (current_time : ℚ)
    (h : st.last_wheel_revs = some prev) (hpos : prev < wheel_revs) :
    (baseCalculateWheelMetrics st wheel_revs wheel_time).2.2.total_distance_m
      = st.total_distance_m + ((wheel_revs - prev : ℤ) : ℚ) * st.wheel_circumference_m ∧
    (fixedCalculateWheelMetrics st wheel_revs wheel_time current_time).2.2.total_distance_m
      = st.total_distance_m + ((wheel_revs - prev : ℤ) : ℚ) * st.wheel_circumference_m := by
  have hd : distanceUpdate st wheel_revs
      = st.total_distance_m + ((wheel_revs - prev : ℤ) : ℚ) * st.wheel_circumference_m := by
    unfold distanceUpdate
    simp [h, show (0 : ℤ) < wheel_revs - prev by omega]
  refine ⟨?_, ?_⟩
  · unfold baseCalculateWheelMetrics
    exact hd
  · rw [fixed_total_distance]
    exact hd

/-- C4 witness: the amended theorem applied to the zero-time-delta
sample `(105, 500)` after `(100, 500)`. -/
theorem distance_increment_ignores_time_delta_witness :
    (baseCalculateWheelMetrics staleTimeState 105 500).2.2.total_distance_m
      = staleTimeState.total_distance_m
        + ((105 - 100 : ℤ) : ℚ) * staleTimeState.wheel_circumference_m ∧
    (fixedCalculateWheelMetrics staleTimeState 105 500 0).2.2.total_distance_m
      = staleTimeState.total_distance_m
        + ((105 - 100 : ℤ) : ℚ) * staleTimeState.wheel_circumference_m :=
  distance_increment_ignores_time_delta staleTimeState 105 500 100 0 rfl (by norm_num)

/-- C5 counterexample: a usable 5 km/h sample arriving half a second
after the last update (less than the 1 s update interval) is NOT
appended to the history — the filter returns the snapped previous speed
and leaves the whole state, including the empty buffer, unchanged. -/
theorem between_tick_sample_discarded :
    filterTick coldStart (some 5) (1 / 2) = (0, coldStart) ∧
    coldStart.speed_buffer = [] := by
  constructor
  · norm_num [filterTick, coldStart, mkFixedReader]
  · rfl

/-- C5 amended: a usable instantaneous sample is appended to the bounded
history (FIFO: append, then drop the oldest entry when the buffer
exceeds its capacity) only when the update tick fires, i.e. when at
least `update_interval` has elapsed since the last update; a sample
arriving between ticks is discarded and the filter state is left
entirely unchanged. -/
theorem sample_ingested_only_on_tick (st : ReaderState) (v : ℚ) (t : ℚ) :
    (t - st.last_update_time < st.update_interval →
      (filterTick st (some v) t).2 = st) ∧
    (st.update_interval ≤ t - st.last_update_time →
      (filterTick st (some v) t).2.speed_buffer =
        if st.buffer_size < (st.speed_buffer ++ [v]).length
        then (st.speed_buffer ++ [v]).drop 1
        else st.speed_buffer ++ [v]) := by
  constructor
  · intro hlt
    unfold filterTick
    rw [if_neg (not_le.2 hlt)]
  · intro hle
    unfold filterTick
    rw [if_pos hle]
    rfl

/-- C5 witness: at a cold-start state, a 5 km/h sample half a second in
is dropped, while the same sample at the 1 s tick is appended. -/
theorem sample_ingested_only_on_tick_witness :
    (filterTick coldStart (some 5) (1 / 2)).2 = coldStart ∧
    (filterTick coldStart (some 5) 1).2.speed_buffer = [5] := by
  constructor
  · exact (sample_ingested_only_on_tick coldStart 5 (1 / 2)).1
      (by norm_num [coldStart, mkFixedReader])
  · have h := (sample_ingested_only_on_tick coldStart 5 1).2
      (by norm_num [coldStart, mkFixedReader])
    simpa [coldStart, mkFixedReader] using h

/-- C6 counterexample: with previous emitted speed 10 km/h, a robust
estimate of 7.5 km/h one second later has a change (2.5 km/h) within the
deceleration bound (3.0 x 1), yet the rate limiter does NOT leave it
unchanged: because the trigger compares against the acceleration bound
(2.0 x 1), the estimate is replaced by a full maximum-deceleration step
to 7 km/h. -/
theorem decel_within_bound_not_left_unchanged :
    rateLimit decelState (15 / 2) 1 = 7 ∧
    |15 / 2 - decelState.last_smoothed_speed| ≤ decelState.max_deceleration * 1 ∧
    (7 : ℚ) ≠ 15 / 2 := by
  refine ⟨?_, ?_, by norm_num⟩ <;>
    norm_num [rateLimit, decelState, mkFixedReader, abs_of_nonpos, abs_of_nonneg]

/-- C6 amended: with `0 <= elapsed`, `0 <= max_acceleration` and
`max_acceleration <= max_deceleration` (the defaults are 2.0 and 3.0),
the rate-limited value increases by at most
`max_acceleration x elapsed` and decreases by at most
`max_deceleration x elapsed`; an estimate is left unchanged exactly when
its absolute change is within the ACCELERATION bound — a decreasing
estimate whose change exceeds the acceleration bound is replaced by a
full maximum-deceleration step even when its change was within the
deceleration bound. -/
theorem rate_limit_bounds (st : ReaderState) (ms dt : ℚ)
    (hdt : 0 ≤ dt) (ha : 0 ≤ st.max_acceleration)
    (had : st.max_acceleration ≤ st.max_deceleration) :
    rateLimit st ms dt ≤ st.last_smoothed_speed + st.max_acceleration * dt ∧
    st.last_smoothed_speed - st.max_deceleration * dt ≤ rateLimit st ms dt ∧
    (|ms - st.last_smoothed_speed| ≤ st.max_acceleration * dt → rateLimit st ms dt = ms) := by
  have hmc : 0 ≤ st.max_acceleration * dt := mul_nonneg ha hdt
  have hdd : st.max_acceleration * dt ≤ st.max_deceleration * dt :=
    mul_le_mul_of_nonneg_right had hdt
  unfold rateLimit
  dsimp only
  split
  · rename_i htrig
    split
    · refine ⟨le_refl _, by linarith, fun habs => absurd habs (not_le.2 htrig)⟩
    · refine ⟨by linarith, le_refl _, fun habs => absurd habs (not_le.2 htrig)⟩
  · rename_i htrig
    rcases abs_le.mp (not_lt.1 htrig) with ⟨hlo, hhi⟩
    exact ⟨by linarith, by linarith, fun _ => rfl⟩

/-- C6 witness: the spec scenario — previous speed 10 km/h, estimate
30 km/h, one second elapsed — is bounded by `10 + 2.0 x 1 = 12`. -/
theorem rate_limit_bounds_witness :
    rateLimit decelState 30 1 ≤
      decelState.last_smoothed_speed + decelState.max_acceleration * 1 ∧
    decelState.last_smoothed_speed + decelState.max_acceleration * 1 = 12 :=
  ⟨(rate_limit_bounds decelState 30 1 (by norm_num)
      (by norm_num [decelState, mkFixedReader])
      (by norm_num [decelState, mkFixedReader])).1,
   by norm_num [decelState, mkFixedReader]⟩

/-- Shape of the stage-6 threshold snap: the emitted value is
nonnegative and is exactly 0 whenever it falls below the (positive)
threshold. -/
theorem snap_spec (thr x : ℚ) (h : 0 < thr) :
    0 ≤ (if thr ≤ x then x else 0) ∧
    ((if thr ≤ x then x else 0) < thr → (if thr ≤ x then x else 0) = 0) := by
  split
  · rename_i hx
    exact ⟨le_trans h.le hx, fun hlt => absurd hlt (not_lt.2 hx)⟩
  · exact ⟨le_refl 0, fun _ => rfl⟩

/-- C7: on every path of the filter (update tick or between ticks), the
emitted speed is nonnegative, and whenever it is strictly below the
(positive) `min_speed_threshold` it is exactly 0 — so a stream whose
smoothed value stays below the threshold emits exactly 0.0, never a
small positive residual. -/
theorem emitted_speed_nonneg_and_snapped (st : ReaderState) (cs : Option ℚ) (t : ℚ)
    (h : 0 < st.min_speed_threshold) :
    0 ≤ (filterTick st cs t).1 ∧
    ((filterTick st cs t).1 < st.min_speed_threshold → (filterTick st cs t).1 = 0) := by
  unfold filterTick
  split
  · exact snap_spec st.min_speed_threshold (smoothedVal st cs t) h
  · exact snap_spec st.min_speed_threshold st.last_smoothed_speed h

/-- C7 witness: a cold-start filter fed a 0.3 km/h sample at its first
tick emits a nonnegative value that is 0 whenever below the 1.0 km/h
threshold. -/
theorem emitted_speed_nonneg_and_snapped_witness :
    0 ≤ (filterTick coldStart (some 0.3) 1).1 ∧
    ((filterTick coldStart (some 0.3) 1).1 < coldStart.min_speed_threshold →
      (filterTick coldStart (some 0.3) 1).1 = 0) :=
  emitted_speed_nonneg_and_snapped coldStart (some 0.3) 1
    (by norm_num [coldStart, mkFixedReader])

/-- C8 counterexample: a zero-length IndoorBikeData buffer does NOT fail
with any error — the decoder is a total function that returns the empty
measurement (the Python code returns `{}` and raises nothing). -/
theorem zero_length_buffer_yields_empty :
    decodeIndoorBikeData [] = IndoorBikeMeasurement.empty := by
  norm_num [decodeIndoorBikeData]

/-- C8 amended: decoding never produces an error for any buffer: a
buffer shorter than the 2-byte flags word yields the empty measurement
(no fields decoded), and otherwise the result contains exactly the
flagged fields that fit in the remaining buffer — e.g. the packet
`[0x09, 0x00, 0xE8, 0x03]` (flags speed+power, truncated after the
speed field) yields `speed_kmh = 10` with the power field absent. -/
theorem decode_empty_or_flagged_fields :
    (∀ data : List ℕ, data.length < 2 →
      decodeIndoorBikeData data = IndoorBikeMeasurement.empty) ∧
    decodeIndoorBikeData [0x09, 0x00, 0xE8, 0x03] =
      ⟨some 9, some 10, none, none, none⟩ := by
  constructor
  · intro data hshort
    unfold decodeIndoorBikeData
    rw [if_pos hshort]
  · norm_num [decodeIndoorBikeData, le16, sle16]

/-- C8 witness: the amended theorem applied to the one-byte buffer
`[0x80]` and to the truncated speed+power packet. -/
theorem decode_empty_or_flagged_fields_witness :
    decodeIndoorBikeData [0x80] = IndoorBikeMeasurement.empty ∧
    decodeIndoorBikeData [0x09, 0x00, 0xE8, 0x03] =
      ⟨some 9, some 10, none, none, none⟩ :=
  ⟨decode_empty_or_flagged_fields.1 [0x80] (by norm_num),
   decode_empty_or_flagged_fields.2⟩

/-- C9 counterexample: in the end-to-end scenario (wheel `1000 -> 1010`,
time `0 -> 1024`, circumference 1.0525 m, one full tick from a cold
start) the instantaneous speed is indeed 37.89 km/h, but the emitted
smoothed speed after the tick is 0 — not approximately 5.68 km/h. -/
theorem end_to_end_first_tick_emits_zero :
    instSpeed seededStart 1010 1024 = some 37.89 ∧
    endToEndRun.1 = 0 := by
  constructor <;>
    norm_num [endToEndRun, seededStart, coldStart, fixedCalculateWheelMetrics, mkFixedReader,
      distanceUpdate, instSpeed, filterTick, smoothedVal, medianSpeed, ingest, rateLimit,
      outlierFiltered, mean, sampleVariance, median, abs_of_nonneg]

/-- C9 amended: the scenario yields instantaneous speed 37.89 km/h and a
distance increment of 10.525 m, but after one full filter tick (1 s
elapsed) from a cold start the 37.89 km/h estimate is rate-limited to
`0 + 2.0 x 1 = 2.0` km/h, smoothed to `0.15 x 2.0 = 0.3` km/h, and —
being below the 1.0 km/h threshold — emitted as exactly 0.0 (with 0.3
retained as the internal smoothed state). -/
theorem end_to_end_cold_start_scenario :
    instSpeed seededStart 1010 1024 = some 37.89 ∧
    endToEndRun.2.2.total_distance_m = 10.525 ∧
    endToEndRun.2.2.last_smoothed_speed = 0.3 ∧
    endToEndRun.1 = 0 := by
  refine ⟨?_, ?_, ?_, ?_⟩ <;>
    norm_num [endToEndRun, seededStart, coldStart, fixedCalculateWheelMetrics, mkFixedReader,
      distanceUpdate, instSpeed, filterTick, smoothedVal, medianSpeed, ingest, rateLimit,
      outlierFiltered, mean, sampleVariance, median, abs_of_nonneg]

/-- C10: when the update tick fires and the smoothed value falls
strictly below the threshold, the filter emits 0 while the post-state is
exactly the record whose `last_smoothed_speed` is the (sub-threshold)
smoothed value itself — not 0 — whose buffer is the ingested history and
whose `last_update_time` is the current time, with every other field
unchanged: the snap influences only the emitted value, never the state. -/
theorem floor_snap_affects_only_output (st : ReaderState) (cs : Option ℚ) (t : ℚ)
    (htick : st.update_interval ≤ t - st.last_update_time)
    (hsub : smoothedVal st cs t < st.min_speed_threshold) :
    (filterTick st cs t).1 = 0 ∧
    (filterTick st cs t).2 =
      { st with
        speed_buffer := ingest st cs
        last_smoothed_speed := smoothedVal st cs t
        last_update_time := t } := by
  unfold filterTick
  rw [if_pos htick]
  exact ⟨if_neg (not_le.2 hsub), rfl⟩

/-- C10 witness: cold-start filter, 0.3 km/h sample at the 1 s tick —
the emitted speed is 0 while the retained smoothed state is
`0.15 x 0.3 = 0.045`, below the threshold but not reset to 0. -/
theorem floor_snap_affects_only_output_witness :
    (filterTick coldStart (some 0.3) 1).1 = 0 ∧
    (filterTick coldStart (some 0.3) 1).2 =
      { coldStart with
        speed_buffer := ingest coldStart (some 0.3)
        last_smoothed_speed := smoothedVal coldStart (some 0.3) 1
        last_update_time := 1 } ∧
    smoothedVal coldStart (some 0.3) 1 = 0.045 := by
  have h := floor_snap_affects_only_output coldStart (some 0.3) 1
    (by norm_num [coldStart, mkFixedReader])
    (by norm_num [coldStart, mkFixedReader, smoothedVal, medianSpeed, ingest, rateLimit,
      abs_of_nonneg])
  exact ⟨h.1, h.2,
    by norm_num [coldStart, mkFixedReader, smoothedVal, medianSpeed, ingest, rateLimit,
      abs_of_nonneg]⟩

end Bike
